import Mathlib

/-!
Verification of the sequential pipeline pattern in the airflow-learning
repository, against its specification.

The embedding covers:
* `is_api_availible` (the Availability Gate sensor) from
  `airflow-intro/dags/user_processing.py`, lines 37-51;
* `extract_user` (the Extractor), lines 53-60;
* `process_user` (the Transformer / CSV serializer), lines 62-72;
* `create_table` (the Table Bootstrap DDL), lines 23-34;
* the task dependency chain of `user_processing`, line 86;
* `transform_sales_data` / `validate_data_quality` from
  `airflow-test/dags/sales_data_pipeline.py`;
* `extract_sales_data` (the HTTP cloud function) from
  `airflow-test/gcp-pipeline/functions/extract_sales_data/main.py`.

Python dictionaries are embedded as ordered association lists (Python
dicts preserve insertion order), JSON values as an inductive `Json`
type, Python exceptions as `Except String`, and external effects
(the HTTP GET, the warehouse clients, `datetime.now`) as explicit
parameters describing their outcome.
-/

/-- JSON-compatible values, the payloads flowing through the pipeline.
Numbers are embedded as rationals (exact decimals such as `29.99`). -/
inductive Json where
  | null : Json
  | bool (b : Bool) : Json
  | str (s : String) : Json
  | num (q : ℚ) : Json
  | arr (elems : List Json) : Json
  | obj (fields : List (String × Json)) : Json

/-- Python subscripting `value[key]`: succeeds on an object that has the
key, raises `KeyError` on an object without it, and `TypeError` on a
non-object (matching `fake_user["id"]` etc. in `extract_user`). -/
def Json.getItem : Json → String → Except String Json
  | .obj fields, k =>
    match fields.lookup k with
    | some v => Except.ok v
    | none => Except.error ("KeyError: " ++ k)
  | _, k => Except.error ("TypeError: value for " ++ k ++ " is not subscriptable")

/-- The outcome of the `requests.get` call inside the sensor: either a
response carrying a status code and a (decoded) JSON body, or a network
error (`requests` raises, e.g. `ConnectionError`). -/
inductive HttpOutcome where
  | networkError (msg : String) : HttpOutcome
  | response (status_code : Nat) (body : Json) : HttpOutcome

/-- `PokeReturnValue(is_done=..., xcom_value=...)` from
`airflow.sdk.bases.sensor`: the sensor's per-poll result. `xcom_value`
is the Python value pushed to XCom, `none` embedding Python `None`. -/
structure PokeReturnValue where
  is_done : Bool
  xcom_value : Option Json

/-- The body of the `is_api_availible` sensor task
(`user_processing.py` lines 38-51): one `requests.get`; on status 200
set `condition = True` and `fake_user = response.json()`, otherwise
`condition = False` and `fake_user = None`; return
`PokeReturnValue(is_done=condition, xcom_value=fake_user)`. A network
error from `requests.get` is not caught and propagates out of the poll
(embedded as `Except.error`). -/
def is_api_availible : HttpOutcome → Except String PokeReturnValue
  | .networkError msg => Except.error msg
  | .response status_code body =>
    if status_code == 200 then
      Except.ok ⟨true, some body⟩
    else
      Except.ok ⟨false, none⟩

/-- A flat Record handed between tasks: a Python dict in insertion
order, with JSON-compatible values. -/
abbrev Record : Type := List (String × Json)

/-- The `extract_user` task (`user_processing.py` lines 53-60):
project the payload into the flat record
`{"id": .., "firstname": .., "lastname": .., "email": ..}`; any missing
key or non-object raises (propagates as `Except.error`). -/
def extract_user (fake_user : Json) : Except String Record := do
  let idv ← fake_user.getItem "id"
  let personalInfo ← fake_user.getItem "personalInfo"
  let firstName ← personalInfo.getItem "firstName"
  let lastName ← personalInfo.getItem "lastName"
  let email ← personalInfo.getItem "email"
  return [("id", idv), ("firstname", firstName), ("lastname", lastName),
          ("email", email)]

example :
    extract_user (Json.obj [("id", Json.num 1),
      ("personalInfo", Json.obj [("firstName", Json.str "A"),
        ("lastName", Json.str "B"), ("email", Json.str "a@b.com")])]) =
    Except.ok [("id", Json.num 1), ("firstname", Json.str "A"),
      ("lastname", Json.str "B"), ("email", Json.str "a@b.com")] := rfl

/-- Python `key in dict` on a record. -/
def Record.hasKey : Record → String → Bool
  | [], _ => false
  | (k', _) :: rest, k => k' == k || Record.hasKey rest k

/-- Python dict assignment `d[key] = value`: overwrite in place if the
key exists, otherwise append at the end (insertion order). -/
def Record.setItem : Record → String → Json → Record
  | [], k, v => [(k, v)]
  | (k', v') :: rest, k, v =>
    if k' == k then (k', v) :: rest else (k', v') :: Record.setItem rest k v

/-- The keys of a record, in insertion order (`dict.keys()`). -/
def Record.keys (r : Record) : List String := r.map Prod.fst

/-- A wall-clock instant, the result of `datetime.now()`. -/
structure DateTime where
  year : Nat
  month : Nat
  day : Nat
  hour : Nat
  minute : Nat
  second : Nat

/-- Zero-pad a decimal number to a width, as the `strftime` directives
`%Y`, `%m`, `%d`, `%H`, `%M`, `%S` do. -/
def zeroPad (width : Nat) (n : Nat) : String :=
  let s := toString n
  String.mk (List.replicate (width - s.length) '0') ++ s

/-- `datetime.strftime("%Y-%m-%d %H:%M:%S")`. -/
def strftimeYmdHMS (t : DateTime) : String :=
  zeroPad 4 t.year ++ "-" ++ zeroPad 2 t.month ++ "-" ++ zeroPad 2 t.day ++
    " " ++ zeroPad 2 t.hour ++ ":" ++ zeroPad 2 t.minute ++ ":" ++
    zeroPad 2 t.second

/-- `csv` module field quoting (QUOTE_MINIMAL, the `csv.writer`
default): a field containing the delimiter, a quote or a line break is
wrapped in double quotes with inner quotes doubled. -/
def csvQuote (s : String) : String :=
  if s.data.any (fun c => c == ',' || c == '"' || c == '\n' || c == '\x0d') then
    "\"" ++ (s.replace "\"" "\"\"") ++ "\""
  else s

/-- Python `str()` of the scalar cell values `csv.DictWriter.writerow`
stringifies; the records written here hold only scalars. -/
def cellStr : Json → String
  | .null => "None"
  | .bool b => if b then "True" else "False"
  | .str s => s
  | .num q => toString q
  | .arr _ => "<list>"
  | .obj _ => "<dict>"

/-- Join CSV fields with the default delimiter. -/
def commaJoin : List String → String
  | [] => ""
  | [f] => f
  | f :: rest => f ++ "," ++ commaJoin rest

/-- One line of CSV for the values of a record. -/
def csvLine (cells : List String) : String := commaJoin (cells.map csvQuote)

/-- The `process_user` task (`user_processing.py` lines 62-72): set
`user_info["created_at"]` to `datetime.now()` formatted as
`%Y-%m-%d %H:%M:%S`, then write `/tmp/user_info.csv` with
`csv.DictWriter(f, fieldnames=user_info.keys())`: one header line from
the keys followed by one data row. The file content is embedded as the
list of its lines; `now` is the sampled clock value. -/
def process_user (user_info : Record) (now : DateTime) : List String :=
  let updated := Record.setItem user_info "created_at"
    (Json.str (strftimeYmdHMS now))
  [csvLine (Record.keys updated),
   csvLine (updated.map (fun kv => cellStr kv.2))]

/-- A column definition as it appears in the DDL: name and the rest of
the column clause (type, constraints, defaults). -/
structure Column where
  name : String
  clause : String
deriving DecidableEq

/-- A table: its column definitions plus its stored rows. Rows are kept
opaque (lists of cell strings); the DDL never touches them. -/
structure Table where
  columns : List Column
  rows : List (List String)
deriving DecidableEq

/-- The database schema state: tables by name. -/
abbrev Database : Type := List (String × Table)

/-- The column list of the `create table if not exists users (...)`
statement in `user_processing.py` lines 26-33. -/
def usersColumns : List Column :=
  [⟨"id", "INT PRIMARY KEY"⟩,
   ⟨"firstName", "VARCHAR(255)"⟩,
   ⟨"lastName", "VARCHAR(255)"⟩,
   ⟨"email", "VARCHAR(255)"⟩,
   ⟨"created_at", "TIMESTAMP DEFAULT CURRENT_TIMESTAMP"⟩]

/-- `CREATE TABLE IF NOT EXISTS`: if a table of that name exists the
statement is a no-op (no error), otherwise it adds an empty table with
the given columns. This is the SQL semantics of the statement the
`create_table` operator issues. -/
def createTableIfNotExists (db : Database) (name : String)
    (cols : List Column) : Database :=
  if (db.lookup name).isSome then db else db ++ [(name, ⟨cols, []⟩)]

/-- The `create_table` task (`user_processing.py` lines 23-34): a
`SQLExecuteQueryOperator` running the `create table if not exists
users (...)` DDL against the configured database. -/
def create_table (db : Database) : Database :=
  createTableIfNotExists db "users" usersColumns

/-- One raw sales row, as built by `extract_sales_data` in
`sales_data_pipeline.py` (columns `order_id`, `customer_id`, `product`,
`quantity`, `price`, `order_date`). Prices are exact decimals. -/
structure SalesRow where
  order_id : Int
  customer_id : Int
  product : String
  quantity : Int
  price : ℚ
  order_date : String

/-- A transformed sales row: the raw row plus the calculated
`total_amount` and `product_category` columns. -/
structure TransformedRow where
  row : SalesRow
  total_amount : ℚ
  product_category : String

/-- Python `'Widget' in x` substring test, used by the categorization
lambda in `transform_sales_data`. -/
def containsWidget (x : String) : Bool := 1 < (x.splitOn "Widget").length

/-- The per-row column assignments of `transform_sales_data`
(`sales_data_pipeline.py` lines 102-106):
`total_amount = quantity * price` and
`product_category = 'Electronics' if 'Widget' in product else 'Other'`. -/
def transformRow (r : SalesRow) : TransformedRow :=
  ⟨r, r.quantity * r.price,
   if containsWidget r.product then "Electronics" else "Other"⟩

/-- `transform_sales_data` (`sales_data_pipeline.py` lines 86-122):
add `total_amount = quantity * price` and the `product_category`
column; if `df['total_amount'].sum() == 0` raise
`ValueError("No sales data found - possible data quality issue")`;
otherwise write the transformed frame for the downstream tasks. -/
def transform_sales_data (rows : List SalesRow) :
    Except String (List TransformedRow) :=
  let t : List TransformedRow := rows.map transformRow
  if (t.map (fun r => r.total_amount)).sum == 0 then
    Except.error "No sales data found - possible data quality issue"
  else
    Except.ok t

/-- `validate_data_quality` (`sales_data_pipeline.py` lines 161-186):
raise on an empty frame, raise
`ValueError("Negative revenue detected - data quality issue")` when the
revenue `df['total_amount'].sum()` is negative, else pass. -/
def validate_data_quality (t : List TransformedRow) : Except String String :=
  if t.length == 0 then
    Except.error "No data processed - pipeline failure"
  else if (t.map (fun r => r.total_amount)).sum < 0 then
    Except.error "Negative revenue detected - data quality issue"
  else
    Except.ok "Data quality OK"

/-- The `extract >> transform >> validate >> report` chain of
`sales_data_pipeline.py` line 259 after extraction: the report/load
task runs only when transform and validate both succeeded, so a
returned `Except.error` means the loader was never invoked. -/
def sales_pipeline_after_extract (rows : List SalesRow) :
    Except String (List TransformedRow) := do
  let t ← transform_sales_data rows
  let _ ← validate_data_quality t
  return t

/-- The tasks of the `user_processing` DAG. -/
inductive UPTask where
  | createTable : UPTask
  | apiGate : UPTask
  | extractUser : UPTask
  | processUser : UPTask
  | storeUser : UPTask
deriving DecidableEq

/-- The direct upstream dependencies declared on line 86 of
`user_processing.py`,
`process_user(extract_user(create_table >> is_api_availible())) >> store_user()`:
the linear chain create_table >> is_api_availible >> extract_user >>
process_user >> store_user. -/
def directUpstream : UPTask → List UPTask
  | .createTable => []
  | .apiGate => [.createTable]
  | .extractUser => [.apiGate]
  | .processUser => [.extractUser]
  | .storeUser => [.processUser]

/-- `create_table` succeeds: it has no upstream, so it runs, and its
body does not fail. (`fails` says which task bodies would raise if
executed; the scheduler applies the default `all_success` trigger
rule: a task instance runs exactly when every direct upstream task ran
and succeeded.) -/
def okCreateTable (fails : UPTask → Bool) : Bool := !fails .createTable

/-- `is_api_availible` succeeds: its upstream `create_table` succeeded
and its own body does not fail. -/
def okApiGate (fails : UPTask → Bool) : Bool :=
  okCreateTable fails && !fails .apiGate

/-- `extract_user` succeeds. -/
def okExtractUser (fails : UPTask → Bool) : Bool :=
  okApiGate fails && !fails .extractUser

/-- `process_user` succeeds. -/
def okProcessUser (fails : UPTask → Bool) : Bool :=
  okExtractUser fails && !fails .processUser

/-- `store_user` succeeds. -/
def okStoreUser (fails : UPTask → Bool) : Bool :=
  okProcessUser fails && !fails .storeUser

/-- Whether a task of the run described by `fails` succeeds, spelled
out along the linear chain of `directUpstream`. -/
def taskSucceeds (fails : UPTask → Bool) : UPTask → Bool
  | .createTable => okCreateTable fails
  | .apiGate => okApiGate fails
  | .extractUser => okExtractUser fails
  | .processUser => okProcessUser fails
  | .storeUser => okStoreUser fails

/-- Whether a task instance runs at all in the run described by
`fails`: all its direct upstream tasks succeeded. -/
def taskRuns (fails : UPTask → Bool) (t : UPTask) : Bool :=
  (directUpstream t).all (taskSucceeds fails)

/-- The calendar date a cloud-function run works on, kept as its ISO
string (the function only ever round-trips it through `str`). -/
abbrev IsoDate : Type := String

/-- The effect outcomes one invocation of the `extract_sales_data`
cloud function (`gcp-pipeline/functions/extract_sales_data/main.py`)
observes from its collaborators: the parsed request body
(`request.get_json(silent=True)`, `none` embedding Python `None`),
the behaviour of `datetime.fromisoformat(...).date()` on the request's
value, today's date, the sample data the generator produced, and the
outcomes of the Cloud Storage upload and the BigQuery insert. -/
structure CFEnv where
  request_json : Option Json
  fromisoformat : Json → Except String IsoDate
  today : IsoDate
  sample_data : List SalesRow
  upload_result : Except String Unit
  insert_result : Except String Unit

/-- Python truthiness of the parsed request body
(`if request_json and ...`): `None`, `{}`, `[]`, `""`, `0`, `False`
are falsy. -/
def jsonTruthy : Json → Bool
  | .null => false
  | .bool b => b
  | .str s => !(s == "")
  | .num q => !(q == 0)
  | .arr elems => !elems.isEmpty
  | .obj fields => !fields.isEmpty

/-- Whether the parsed body is truthy and `'execution_date' in
request_json` holds (membership in a dict tests its keys). -/
def hasExecutionDate (j : Json) : Bool :=
  jsonTruthy j &&
    (match j with
     | .obj fields => Record.hasKey fields "execution_date"
     | _ => false)

/-- The `try` body of `extract_sales_data` (`main.py` lines 32-60):
resolve the execution date (from the request when present, else
today), generate the sample data, upload it to Cloud Storage, insert
it into BigQuery. An error carries the message and the execution date
when it was already bound (`'execution_date' in locals()`). -/
def cf_try_body (env : CFEnv) :
    Except (String × Option IsoDate) (IsoDate × Nat) :=
  let dateRes : Except String IsoDate :=
    match env.request_json with
    | some j =>
      if hasExecutionDate j then
        match j.getItem "execution_date" with
        | Except.ok v => env.fromisoformat v
        | Except.error e => Except.error e
      else Except.ok env.today
    | none => Except.ok env.today
  match dateRes with
  | Except.error e => Except.error (e, none)
  | Except.ok d =>
    match env.upload_result with
    | Except.error e => Except.error (e, some d)
    | Except.ok _ =>
      match env.insert_result with
      | Except.error e => Except.error (e, some d)
      | Except.ok _ => Except.ok (d, env.sample_data.length)

/-- `extract_sales_data` (`main.py` lines 16-69): the whole body runs
inside `try/except Exception`; success returns the JSON result with
HTTP 200, any exception is converted to the JSON error result with
HTTP 500. The return value is the response body and status code. -/
def extract_sales_data_cf (env : CFEnv) : Json × Nat :=
  match cf_try_body env with
  | Except.ok (d, n) =>
    (Json.obj [("status", Json.str "success"),
       ("execution_date", Json.str d),
       ("records_processed", Json.num n),
       ("message", Json.str
         ("Successfully extracted " ++ toString n ++ " sales records"))],
     200)
  | Except.error (e, dOpt) =>
    (Json.obj [("status", Json.str "error"),
       ("error", Json.str e),
       ("execution_date",
        match dOpt with
        | some d => Json.str d
        | none => Json.null)],
     500)




/-! ## Theorems -/

/-- C1: on a poll whose HTTP read returns a response, status 200 yields
`PokeReturnValue` with `is_done = true` and the decoded JSON body as
payload, and any other status code yields `is_done = false`. -/
theorem gate_status_dispatch (status : Nat) (body : Json) :
    (status = 200 →
      is_api_availible (HttpOutcome.response status body) =
        Except.ok ⟨true, some body⟩) ∧
    (status ≠ 200 →
      is_api_availible (HttpOutcome.response status body) =
        Except.ok ⟨false, none⟩) := by
  constructor
  · intro h
    subst h
    rfl
  · intro h
    have hb : (status == 200) = false := by
      simpa using h
    simp [is_api_availible, hb]

theorem gate_status_dispatch_witness :
    (200 : Nat) = 200 ∧
      is_api_availible (HttpOutcome.response 200 (Json.obj [])) =
        Except.ok ⟨true, some (Json.obj [])⟩ ∧
    (404 : Nat) ≠ 200 ∧
      is_api_availible (HttpOutcome.response 404 Json.null) =
        Except.ok ⟨false, none⟩ :=
  ⟨rfl, (gate_status_dispatch 200 (Json.obj [])).1 rfl,
   by decide, (gate_status_dispatch 404 Json.null).2 (by decide)⟩

/-- C5 (counterexample): the claim says a network error is treated as
not ready (the gate returns `ready = false`); in the code the
`requests.get` exception is not caught, so the poll raises instead of
returning a `PokeReturnValue`. -/
theorem gate_network_error_raises :
    is_api_availible (HttpOutcome.networkError "ConnectionError") =
      Except.error "ConnectionError" := rfl

/-- C5 (amended): any HTTP response with a status other than 200 is
treated as not ready, but a network error from the GET propagates out
of the poll attempt (it raises rather than returning `ready = false`). -/
theorem gate_non_200_not_ready (status : Nat) (body : Json) (msg : String)
    (h : status ≠ 200) :
    is_api_availible (HttpOutcome.response status body) =
      Except.ok ⟨false, none⟩ ∧
    is_api_availible (HttpOutcome.networkError msg) = Except.error msg := by
  constructor
  · have hb : (status == 200) = false := by
      simpa using h
    simp [is_api_availible, hb]
  · rfl

theorem gate_non_200_not_ready_witness :
    (503 : Nat) ≠ 200 ∧
      is_api_availible (HttpOutcome.response 503 Json.null) =
        Except.ok ⟨false, none⟩ :=
  ⟨by decide,
   (gate_non_200_not_ready 503 Json.null "timeout" (by decide)).1⟩

/-- C9: every `PokeReturnValue` the gate actually returns satisfies
the invariant that the XCom payload is present exactly when
`is_done = true`. -/
theorem gate_poll_result_invariant (o : HttpOutcome) (r : PokeReturnValue)
    (h : is_api_availible o = Except.ok r) :
    r.is_done = true ↔ r.xcom_value.isSome = true := by
  cases o with
  | networkError msg =>
    simp [is_api_availible] at h
  | response status body =>
    by_cases hs : (status == 200) = true
    · simp [is_api_availible, hs] at h
      cases h
      simp
    · simp [is_api_availible, hs] at h
      cases h
      simp

/-- C2: on any payload carrying `id` and a `personalInfo` sub-object
with `firstName`, `lastName` and `email`, the Extractor returns
exactly the flat record with fields `id`, `firstname`, `lastname`,
`email` taken from those positions. -/
theorem extract_user_projects (j p idv fn ln em : Json)
    (h1 : j.getItem "id" = Except.ok idv)
    (h2 : j.getItem "personalInfo" = Except.ok p)
    (h3 : p.getItem "firstName" = Except.ok fn)
    (h4 : p.getItem "lastName" = Except.ok ln)
    (h5 : p.getItem "email" = Except.ok em) :
    extract_user j = Except.ok
      [("id", idv), ("firstname", fn), ("lastname", ln), ("email", em)] := by
  simp [extract_user, bind, Except.bind, Functor.map, Except.map,
    pure, Except.pure, h1, h2, h3, h4, h5]

theorem extract_user_projects_witness :
    extract_user (Json.obj [("id", Json.num 1),
      ("personalInfo", Json.obj [("firstName", Json.str "A"),
        ("lastName", Json.str "B"), ("email", Json.str "a@b.com")])]) =
    Except.ok [("id", Json.num 1), ("firstname", Json.str "A"),
      ("lastname", Json.str "B"), ("email", Json.str "a@b.com")] :=
  extract_user_projects
    (Json.obj [("id", Json.num 1),
      ("personalInfo", Json.obj [("firstName", Json.str "A"),
        ("lastName", Json.str "B"), ("email", Json.str "a@b.com")])])
    (Json.obj [("firstName", Json.str "A"), ("lastName", Json.str "B"),
      ("email", Json.str "a@b.com")])
    (Json.num 1) (Json.str "A") (Json.str "B") (Json.str "a@b.com")
    rfl rfl rfl rfl rfl

/-- C4: on any payload where the `personalInfo` sub-object is missing
(or is not an object), or where any of the required keys under it is
missing, the Extractor raises and produces no record at all — the
result is an error, never a partial record. -/
theorem extract_user_missing_fails (j : Json)
    (h : (j.getItem "personalInfo").isOk = false ∨
      ∃ p, j.getItem "personalInfo" = Except.ok p ∧
        ((p.getItem "firstName").isOk = false ∨
         (p.getItem "lastName").isOk = false ∨
         (p.getItem "email").isOk = false)) :
    (extract_user j).isOk = false := by
  cases hid : j.getItem "id" with
  | error e =>
    simp [extract_user, bind, Except.bind, hid, Except.isOk, Except.toBool]
  | ok idv =>
    rcases h with hp | ⟨p, hp, hsub⟩
    · cases hpi : j.getItem "personalInfo" with
      | error e =>
        simp [extract_user, bind, Except.bind, hid, hpi, Except.isOk,
          Except.toBool]
      | ok p =>
        rw [hpi] at hp
        simp [Except.isOk, Except.toBool] at hp
    · rcases hsub with hf | hl | he
      · cases hfn : p.getItem "firstName" with
        | error e =>
          simp [extract_user, bind, Except.bind, hid, hp, hfn, Except.isOk,
            Except.toBool]
        | ok v =>
          rw [hfn] at hf
          simp [Except.isOk, Except.toBool] at hf
      · cases hln : p.getItem "lastName" with
        | error e =>
          cases hfn : p.getItem "firstName" with
          | error e2 =>
            simp [extract_user, bind, Except.bind, hid, hp, hfn, Except.isOk,
              Except.toBool]
          | ok v =>
            simp [extract_user, bind, Except.bind, hid, hp, hfn, hln,
              Except.isOk, Except.toBool]
        | ok v =>
          rw [hln] at hl
          simp [Except.isOk, Except.toBool] at hl
      · cases hem : p.getItem "email" with
        | error e =>
          cases hfn : p.getItem "firstName" with
          | error e2 =>
            simp [extract_user, bind, Except.bind, hid, hp, hfn, Except.isOk,
              Except.toBool]
          | ok v1 =>
            cases hln : p.getItem "lastName" with
            | error e3 =>
              simp [extract_user, bind, Except.bind, hid, hp, hfn, hln,
                Except.isOk, Except.toBool]
            | ok v2 =>
              simp [extract_user, bind, Except.bind, Functor.map, Except.map,
                hid, hp, hfn, hln, hem, Except.isOk, Except.toBool]
        | ok v =>
          rw [hem] at he
          simp [Except.isOk, Except.toBool] at he

theorem extract_user_missing_fails_witness :
    ((Json.obj [("id", Json.num 7)]).getItem "personalInfo").isOk = false ∧
    (extract_user (Json.obj [("id", Json.num 7)])).isOk = false :=
  ⟨rfl, extract_user_missing_fails (Json.obj [("id", Json.num 7)])
    (Or.inl rfl)⟩

theorem gate_poll_result_invariant_witness :
    is_api_availible (HttpOutcome.response 200 (Json.obj [])) =
      Except.ok ⟨true, some (Json.obj [])⟩ ∧
    ((true : Bool) = true ↔ (some (Json.obj [])).isSome = true) :=
  ⟨rfl, gate_poll_result_invariant (HttpOutcome.response 200 (Json.obj []))
    ⟨true, some (Json.obj [])⟩ rfl⟩

/-- Looking up a key appended at the end of a list that did not contain
it finds the appended value. -/
theorem lookup_append_singleton {α β : Type} [BEq α] [LawfulBEq α]
    (l : List (α × β)) (k : α) (v : β) (h : l.lookup k = none) :
    (l ++ [(k, v)]).lookup k = some v := by
  induction l with
  | nil => simp [List.lookup]
  | cons kv rest ih =>
    cases kv with
    | mk a b =>
      by_cases hk : (k == a) = true
      · simp [List.lookup, hk] at h
      · simp only [List.cons_append, List.lookup, hk] at h ⊢
        exact ih h

/-- C6: the Table Bootstrap is idempotent. Running the
`create table if not exists` step twice leaves the schema identical to
running it once; when the `users` table already exists the step
changes nothing (no error, existing data untouched); and in every case
the step either leaves the database unchanged or only appends the
fresh empty `users` table. -/
theorem create_table_idempotent (db : Database) :
    create_table (create_table db) = create_table db ∧
    (∀ t : Table, db.lookup "users" = some t → create_table db = db) ∧
    (create_table db = db ∨
      create_table db = db ++ [("users", ⟨usersColumns, []⟩)]) := by
  refine ⟨?_, ?_, ?_⟩
  · cases h : db.lookup "users" with
    | some t => simp [create_table, createTableIfNotExists, h]
    | none =>
      have h2 : (db ++ [("users", (⟨usersColumns, []⟩ : Table))]).lookup
          "users" = some ⟨usersColumns, []⟩ :=
        lookup_append_singleton db "users" _ h
      simp [create_table, createTableIfNotExists, h, h2]
  · intro t ht
    simp [create_table, createTableIfNotExists, ht]
  · cases h : db.lookup "users" with
    | some t => left; simp [create_table, createTableIfNotExists, h]
    | none => right; simp [create_table, createTableIfNotExists, h]

/-- A database that already holds a populated `users` table. -/
def preloadedDb : Database :=
  [("users", ⟨usersColumns,
    [["1", "A", "B", "a@b.com", "2024-01-01 00:00:00"]]⟩)]

theorem create_table_idempotent_witness :
    preloadedDb.lookup "users" = some ⟨usersColumns,
      [["1", "A", "B", "a@b.com", "2024-01-01 00:00:00"]]⟩ ∧
    create_table preloadedDb = preloadedDb :=
  ⟨rfl, (create_table_idempotent preloadedDb).2.1
    ⟨usersColumns, [["1", "A", "B", "a@b.com", "2024-01-01 00:00:00"]]⟩ rfl⟩

/-- Assigning a key a dict does not contain appends it at the end of
the insertion order. -/
theorem setItem_of_not_hasKey (u : Record) (k : String) (v : Json)
    (h : Record.hasKey u k = false) :
    Record.setItem u k v = u ++ [(k, v)] := by
  induction u with
  | nil => rfl
  | cons kv rest ih =>
    cases kv with
    | mk k' v' =>
      simp [Record.hasKey] at h
      simp [Record.setItem, h.1, ih h.2]

/-- C7: on any record not yet carrying `created_at` (as every
Extractor output), the Transformer appends `created_at` formatted
`%Y-%m-%d %H:%M:%S` and serializes exactly two lines: a header with the
record's keys in insertion order followed by the single data row, the
new field last in both. -/
theorem process_user_csv (u : Record) (now : DateTime)
    (h : Record.hasKey u "created_at" = false) :
    process_user u now =
      [csvLine (Record.keys u ++ ["created_at"]),
       csvLine (u.map (fun kv => cellStr kv.2) ++ [strftimeYmdHMS now])] ∧
    (process_user u now).length = 2 := by
  have hs := setItem_of_not_hasKey u "created_at"
    (Json.str (strftimeYmdHMS now)) h
  constructor
  · simp [process_user, hs, Record.keys, cellStr]
  · simp [process_user]

theorem process_user_csv_witness :
    Record.hasKey [("id", Json.num 1), ("firstname", Json.str "A"),
      ("lastname", Json.str "B"), ("email", Json.str "a@b.com")]
      "created_at" = false ∧
    process_user [("id", Json.num 1), ("firstname", Json.str "A"),
      ("lastname", Json.str "B"), ("email", Json.str "a@b.com")]
      ⟨2024, 1, 15, 12, 30, 5⟩ =
      [csvLine (Record.keys [("id", Json.num 1), ("firstname", Json.str "A"),
        ("lastname", Json.str "B"), ("email", Json.str "a@b.com")] ++
        ["created_at"]),
       csvLine ([("id", Json.num 1), ("firstname", Json.str "A"),
        ("lastname", Json.str "B"), ("email", Json.str "a@b.com")].map
          (fun kv => cellStr kv.2) ++
        [strftimeYmdHMS ⟨2024, 1, 15, 12, 30, 5⟩])] :=
  ⟨rfl, (process_user_csv [("id", Json.num 1), ("firstname", Json.str "A"),
    ("lastname", Json.str "B"), ("email", Json.str "a@b.com")]
    ⟨2024, 1, 15, 12, 30, 5⟩ rfl).1⟩

example :
    process_user [("id", Json.num 1), ("firstname", Json.str "A"),
      ("lastname", Json.str "B"), ("email", Json.str "a@b.com")]
      ⟨2024, 1, 15, 12, 30, 5⟩ =
    ["id,firstname,lastname,email,created_at",
     "1,A,B,a@b.com,2024-01-15 12:30:05"] := by decide

/-- A sales row whose total amount is negative: quantity 1 at price
-5, so the required positive aggregate is -5 ≤ 0. -/
def negRow : SalesRow := ⟨1001, 501, "Widget A", 1, -5, "2024-01-01"⟩

/-- C3 (counterexample): on a frame whose total-amount sum is -5 (so
≤ 0), `transform_sales_data` succeeds — its inline check only raises
when the sum is exactly 0 (`if df['total_amount'].sum() == 0`), not
when it is negative, contradicting the claim that the Transformer
fails on every non-positive aggregate. -/
theorem transform_negative_revenue_cex :
    (transform_sales_data [negRow]).isOk = true := by
  have hsum : (([negRow].map transformRow).map
      (fun r => r.total_amount)).sum = -5 := by
    simp [transformRow, negRow]
  have hcond : ((([negRow].map transformRow).map
      (fun r => r.total_amount)).sum == 0) = false :=
    beq_eq_false_iff_ne.mpr (by rw [hsum]; norm_num)
  have htr : transform_sales_data [negRow] =
      Except.ok ([negRow].map transformRow) := by
    simp only [transform_sales_data]
    rw [hcond]
    simp
  rw [htr]
  rfl

/-- C3 (amended): whenever the total-amount sum is ≤ 0 the pipeline
still fails before the load/report step — the Transformer itself
raises when the sum is exactly 0, and the downstream
`validate_data_quality` task raises when the sum is negative — so the
loader is never invoked on such a record. -/
theorem sales_pipeline_nonpositive_revenue (rows : List SalesRow)
    (h : ((rows.map transformRow).map (fun r => r.total_amount)).sum ≤ 0) :
    (sales_pipeline_after_extract rows).isOk = false ∧
    (((rows.map transformRow).map (fun r => r.total_amount)).sum = 0 →
      (transform_sales_data rows).isOk = false) := by
  rcases eq_or_lt_of_le h with heq | hlt
  · have hcond :
        (((rows.map transformRow).map (fun r => r.total_amount)).sum == 0) =
          true := by
      rw [heq]
      exact beq_self_eq_true 0
    have htr : transform_sales_data rows =
        Except.error "No sales data found - possible data quality issue" := by
      simp only [transform_sales_data]
      rw [hcond]
      simp
    have hfalse : (transform_sales_data rows).isOk = false := by
      rw [htr]
      rfl
    refine ⟨?_, fun _ => hfalse⟩
    have hpipe : sales_pipeline_after_extract rows =
        Except.error "No sales data found - possible data quality issue" := by
      simp only [sales_pipeline_after_extract, bind, Except.bind, htr]
    rw [hpipe]
    rfl
  · have hcond :
        (((rows.map transformRow).map (fun r => r.total_amount)).sum == 0) =
          false := by
      exact beq_eq_false_iff_ne.mpr (ne_of_lt hlt)
    have htr : transform_sales_data rows =
        Except.ok (rows.map transformRow) := by
      simp only [transform_sales_data]
      rw [hcond]
      simp
    have hrows : rows ≠ [] := by
      intro hnil
      rw [hnil] at hlt
      simp at hlt
    have hlen : ((rows.map transformRow).length == 0) = false := by
      refine beq_eq_false_iff_ne.mpr ?_
      simp [hrows]
    have hval : validate_data_quality (rows.map transformRow) =
        Except.error "Negative revenue detected - data quality issue" := by
      simp only [validate_data_quality]
      rw [hlen]
      simp only [Bool.false_eq_true, if_false]
      rw [if_pos hlt]
    constructor
    · have hpipe : sales_pipeline_after_extract rows =
          Except.error "Negative revenue detected - data quality issue" := by
        simp only [sales_pipeline_after_extract, bind, Except.bind, htr, hval]
      rw [hpipe]
      rfl
    · intro heq0
      exact absurd heq0 (ne_of_lt hlt)

theorem sales_pipeline_nonpositive_revenue_witness :
    (([negRow].map transformRow).map (fun r => r.total_amount)).sum ≤ 0 ∧
    (sales_pipeline_after_extract [negRow]).isOk = false := by
  have hsum : (([negRow].map transformRow).map
      (fun r => r.total_amount)).sum = -5 := by
    simp [transformRow, negRow]
  have hle : (([negRow].map transformRow).map
      (fun r => r.total_amount)).sum ≤ 0 := by
    rw [hsum]
    norm_num
  exact ⟨hle, (sales_pipeline_nonpositive_revenue [negRow] hle).1⟩

/-- A run in which no task body fails. -/
def noFailures : UPTask → Bool := fun _ => false

/-- A run in which only the gate task body fails. -/
def gateFails : UPTask → Bool := fun t => t == UPTask.apiGate

/-- A run in which only the extractor task body fails. -/
def extractFails : UPTask → Bool := fun t => t == UPTask.extractUser

/-- A run in which only the transformer task body fails. -/
def processFails : UPTask → Bool := fun t => t == UPTask.processUser

/-- C8: in every `user_processing` run the four steps are ordered
Gate → Extractor → Transformer → Loader — a step only runs once every
earlier step has succeeded — and any step's failure prevents every
downstream step from running at all. -/
theorem user_processing_order_and_abort (fails : UPTask → Bool) :
    (taskRuns fails UPTask.storeUser = true →
      taskSucceeds fails UPTask.apiGate = true ∧
      taskSucceeds fails UPTask.extractUser = true ∧
      taskSucceeds fails UPTask.processUser = true) ∧
    (taskRuns fails UPTask.processUser = true →
      taskSucceeds fails UPTask.extractUser = true) ∧
    (taskRuns fails UPTask.extractUser = true →
      taskSucceeds fails UPTask.apiGate = true) ∧
    (fails UPTask.apiGate = true →
      taskRuns fails UPTask.extractUser = false ∧
      taskRuns fails UPTask.processUser = false ∧
      taskRuns fails UPTask.storeUser = false) ∧
    (fails UPTask.extractUser = true →
      taskRuns fails UPTask.processUser = false ∧
      taskRuns fails UPTask.storeUser = false) ∧
    (fails UPTask.processUser = true →
      taskRuns fails UPTask.storeUser = false) := by
  cases hc : fails UPTask.createTable <;>
    cases hg : fails UPTask.apiGate <;>
      cases he : fails UPTask.extractUser <;>
        cases hp : fails UPTask.processUser <;>
          simp_all [taskRuns, directUpstream, taskSucceeds, okStoreUser,
            okProcessUser, okExtractUser, okApiGate, okCreateTable]

theorem user_processing_order_and_abort_witness :
    taskRuns noFailures UPTask.storeUser = true ∧
    taskSucceeds noFailures UPTask.apiGate = true ∧
    gateFails UPTask.apiGate = true ∧
    taskRuns gateFails UPTask.extractUser = false ∧
    extractFails UPTask.extractUser = true ∧
    taskRuns extractFails UPTask.processUser = false ∧
    processFails UPTask.processUser = true ∧
    taskRuns processFails UPTask.storeUser = false :=
  ⟨rfl,
   ((user_processing_order_and_abort noFailures).1 rfl).1,
   rfl,
   ((user_processing_order_and_abort gateFails).2.2.2.1 rfl).1,
   rfl,
   ((user_processing_order_and_abort extractFails).2.2.2.2.1 rfl).1,
   rfl,
   (user_processing_order_and_abort processFails).2.2.2.2.2 rfl⟩

/-- C10: every invocation of the `extract_sales_data` cloud function
returns normally — never propagating an exception — with either the
success JSON body and HTTP 200 or the error JSON body and HTTP 500,
the body's `status` field matching the code. -/
theorem cloud_function_total (env : CFEnv) :
    ((extract_sales_data_cf env).2 = 200 ∧
      (extract_sales_data_cf env).1.getItem "status" =
        Except.ok (Json.str "success")) ∨
    ((extract_sales_data_cf env).2 = 500 ∧
      (extract_sales_data_cf env).1.getItem "status" =
        Except.ok (Json.str "error")) := by
  cases h : cf_try_body env with
  | ok v =>
    left
    cases v with
    | mk d n =>
      constructor
      · simp [extract_sales_data_cf, h]
      · simp [extract_sales_data_cf, h, Json.getItem, List.lookup]
  | error e =>
    right
    cases e with
    | mk msg dOpt =>
      constructor
      · simp [extract_sales_data_cf, h]
      · simp [extract_sales_data_cf, h, Json.getItem, List.lookup]
